import Mathlib

/-!
Verification development for the qrscanapp repository.

The repository is a Node.js service (src/server.js, src/routes/scanRoutes.js)
that decodes QR-encoded signed credentials, verifies RSA signatures against
issuer keys published by a trust registry, and caches registry responses in a
MongoDB collection (EbsiCache).

This file gives a shallow embedding of the core operations:
  * `base64ToBase64Url` / `base64UrlToBase64` / `normalizeThumbprintForEbsi`
    (scanRoutes.js lines 37-158),
  * the EbsiCache model: `findOrCreate`, `updateWithEbsiResponse`,
    `markAllForRefresh` (server.js, EbsiCache schema section),
  * `checkThumbprintInBridge` (scanRoutes.js lines 1707-1833),
  * `refreshCacheInBackground` (scanRoutes.js lines 1910-1960),
  * `validateJwtSignature` and its key-resolution helpers
    (scanRoutes.js lines 864-1089),
  * `verifySignature` and `processVerificationData`
    (scanRoutes.js lines 744-862 and 1091-1193).

JavaScript values are modelled by a `Json` inductive; JS truthiness, the
`||` default operator and dynamic member access are modelled by `jsTruthy`,
`jsOrJson` and `Json.getField` (member access on a non-object value is
modelled as `undefined`/`none`; the guarded code paths never perform member
access on `null`).  External effects (MongoDB persistence, axios HTTP calls,
Node `crypto`, `base45`, `pako`, `jsonwebtoken`) are modelled as explicit
state passing over a `Cache` list and as oracle parameters carrying the
behaviour of the external library, quantified in the theorems.
-/

/-- JavaScript/JSON value, as handled by the dynamically typed source. -/
inductive Json where
  | null : Json
  | bool (b : Bool) : Json
  | num (n : Int) : Json
  | str (s : String) : Json
  | arr (elems : List Json) : Json
  | obj (fields : List (String × Json)) : Json

/-- JavaScript truthiness of a value (`if (x)`). `[]` and `\x7b\x7d` are truthy. -/
def jsTruthy : Json → Bool
  | Json.null => false
  | Json.bool b => b
  | Json.num n => n != 0
  | Json.str s => s != ""
  | Json.arr _ => true
  | Json.obj _ => true

/-- Member access `x.key`: first binding of an object field, otherwise
`undefined` (modelled as `none`). -/
def Json.getField : Json → String → Option Json
  | Json.obj fields, key => List.lookup key fields
  | _, _ => none

/-- JS `v || dflt` on an optionally present value: the value when truthy,
else the default. -/
def jsOrJson (v : Option Json) (dflt : Json) : Json :=
  match v with
  | some x => if jsTruthy x then x else dflt
  | none => dflt

mutual
/-- JS string coercion of a value, as in a template literal. An object
prints as `[object Object]`; an array joins its elements with commas, with
`null` elements printing empty. -/
def jsDisplay : Json → String
  | Json.null => "null"
  | Json.bool b => if b then "true" else "false"
  | Json.num n => toString n
  | Json.str s => s
  | Json.arr xs => String.intercalate "," (jsDisplayList xs)
  | Json.obj _ => "[object Object]"

/-- Elementwise JS string coercion inside an array join (`null` prints empty). -/
def jsDisplayList : List Json → List String
  | [] => []
  | Json.null :: rest => "" :: jsDisplayList rest
  | x :: rest => jsDisplay x :: jsDisplayList rest
end

/-- JS string coercion of a possibly-`undefined` value. -/
def jsDisplayOpt : Option Json → String
  | some v => jsDisplay v
  | none => "undefined"

/-- JS `s.includes(c)` for a single-character needle. -/
def jsIncludesChar (s : String) (c : Char) : Bool :=
  s.data.contains c

/-- JS `s.includes(pat)` for a non-empty needle, via `splitOn`: the pattern
occurs in `s` iff splitting on it yields more than one piece. -/
def jsIncludesSubstr (s pat : String) : Bool :=
  (s.splitOn pat).length > 1

/-- Split a character list on a separator character, JS `split` semantics:
consecutive separators and ends produce empty pieces. -/
def splitOnCharAux (sep : Char) : List Char → List Char → List (List Char)
  | [], acc => [acc.reverse]
  | c :: rest, acc =>
      if c = sep then acc.reverse :: splitOnCharAux sep rest []
      else splitOnCharAux sep rest (c :: acc)

/-- JS `s.split(sep)` for a single-character separator (the only form the
source uses: `'.'`, `':'`, `'/'`). -/
def jsSplitChar (s : String) (sep : Char) : List String :=
  (splitOnCharAux sep s.data []).map String.mk

/-! ## Base64 utilities and the thumbprint normalizer
(scanRoutes.js lines 37-158). -/

/-- One `String.replace(/a/g, b)` pass with single-character pattern and
replacement. -/
def replaceChar (a b : Char) (s : String) : String :=
  String.mk (s.data.map (fun c => if c = a then b else c))

/-- One `String.replace(/a/g, '')` pass deleting a single character. -/
def removeChar (a : Char) (s : String) : String :=
  String.mk (s.data.filter (fun c => c != a))

/-- `base64ToBase64Url` (scanRoutes.js lines 37-67): replace `+` with `-`,
`/` with `_`, and strip `=` padding. The `catch` branch is unreachable
because the string replacements cannot throw. -/
def base64ToBase64Url (base64 : String) : String :=
  removeChar '=' (replaceChar '/' '_' (replaceChar '+' '-' base64))

/-- Padding block of `base64UrlToBase64` (scanRoutes.js lines 79-83):
`if (padding) base64 += '='.repeat(4 - padding)` with
`padding = base64.length % 4`. -/
def padTo4 (base64 : String) : String :=
  if base64.length % 4 ≠ 0 then
    base64 ++ String.mk (List.replicate (4 - base64.length % 4) '=')
  else base64

/-- `base64UrlToBase64` (scanRoutes.js lines 70-101): replace `-` with `+`,
`_` with `/`, then pad with `=` to a multiple of 4 characters. -/
def base64UrlToBase64 (base64url : String) : String :=
  padTo4 (replaceChar '_' '/' (replaceChar '-' '+' base64url))

/-- Result shape of `normalizeThumbprintForEbsi`. -/
structure NormalizationResult where
  normalized : String
  conversionApplied : String
  original : String

/-- `thumbprint.includes('+') || thumbprint.includes('/') || thumbprint.includes('=')`. -/
def hasBase64Chars (thumbprint : String) : Bool :=
  jsIncludesChar thumbprint '+' || jsIncludesChar thumbprint '/' || jsIncludesChar thumbprint '='

/-- `thumbprint.includes('-') || thumbprint.includes('_')`. -/
def hasBase64UrlChars (thumbprint : String) : Bool :=
  jsIncludesChar thumbprint '-' || jsIncludesChar thumbprint '_'

/-- `normalizeThumbprintForEbsi` (scanRoutes.js lines 104-158). The `catch`
branch is unreachable: no statement in the `try` block can throw. -/
def normalizeThumbprintForEbsi (thumbprint : String) : NormalizationResult :=
  if hasBase64Chars thumbprint && !hasBase64UrlChars thumbprint then
    { normalized := base64ToBase64Url thumbprint
      conversionApplied := "base64-to-base64url"
      original := thumbprint }
  else if hasBase64UrlChars thumbprint && !hasBase64Chars thumbprint then
    { normalized := thumbprint
      conversionApplied := "already-base64url"
      original := thumbprint }
  else if !hasBase64Chars thumbprint && !hasBase64UrlChars thumbprint then
    { normalized := thumbprint
      conversionApplied := "assumed-base64url"
      original := thumbprint }
  else
    { normalized := thumbprint
      conversionApplied := "mixed-encoding-kept-as-is"
      original := thumbprint }

/-! ## The EbsiCache data model (server.js, EbsiCache schema). -/

/-- The `issuerInfo` subdocument of an EbsiCache entry; a field set from a
missing (`undefined`) response field is unset (`none`). -/
structure IssuerInfo where
  officialId : Option Json := none
  countryCode : Option Json := none
  name : Option Json := none

/-- One document of the EbsiCache collection (server.js schema fields).
`lastChecked` is a timestamp modelled as a `Nat`; `lastStatus` is `none`
for the schema default `null`. -/
structure CacheEntry where
  thumbprint : String
  found : Bool
  ebsiResponse : Json
  publicKey : Json
  issuerInfo : IssuerInfo
  lastChecked : Nat
  hitCount : Nat
  needsRefresh : Bool
  source : String
  lastStatus : Option Int
  lastError : Option String

/-- The EbsiCache collection. The `thumbprint` field carries a unique index,
which the modelled operations maintain. -/
abbrev Cache := List CacheEntry

/-- `EbsiCache.findOne(\x7b thumbprint \x7d)`. -/
def findOne (cache : Cache) (thumbprint : String) : Option CacheEntry :=
  List.find? (fun e => e.thumbprint == thumbprint) cache

/-- Persisting a (possibly new) document: with the unique `thumbprint` index,
saving replaces the document with the same key, otherwise inserts. -/
def saveEntry (cache : Cache) (e : CacheEntry) : Cache :=
  if List.any cache (fun x => x.thumbprint == e.thumbprint) then
    List.map (fun x => if x.thumbprint == e.thumbprint then e else x) cache
  else cache ++ [e]

/-- `ebsiCacheSchema.statics.findOrCreate` (server.js lines 139-149): return
the existing document, or construct a fresh one with `found: false`,
`source: 'verification'` and the schema defaults (`hitCount: 1`,
`needsRefresh: false`, null response and key fields). The fresh document is
not yet saved. -/
def findOrCreate (cache : Cache) (thumbprint : String) (now : Nat) : CacheEntry :=
  match findOne cache thumbprint with
  | some entry => entry
  | none =>
      { thumbprint := thumbprint
        found := false
        ebsiResponse := Json.null
        publicKey := Json.null
        issuerInfo := {}
        lastChecked := now
        hitCount := 1
        needsRefresh := false
        source := "verification"
        lastStatus := none
        lastError := none }

/-- The strict Boolean that mongoose ends up storing in `found` for
`this.found = response && Array.isArray(response) && response.length > 0`,
or `none` when the subsequent `save()` is rejected. The JS `&&` chain
yields a strict Boolean for an array (`length > 0`), for a falsy Boolean
(`false && ...` is `false`) and for every truthy non-array value
(`Array.isArray` is `false`); the number `0` short-circuits to `0`, which
the Boolean cast maps to `false`. But a `null` response — the argument of
every error-path call — short-circuits to `null`, which passes the Boolean
cast unchanged and then fails the schema's `required: true` check
(mongoose's `checkRequired` for Booleans accepts only strict `true` or
`false`); an empty string short-circuits to the empty string, which fails
the Boolean cast. In both cases `save()` rejects with a validation error
and nothing is persisted. -/
def foundBooleanOf : Json → Option Bool
  | Json.arr elems => some (decide (elems.length > 0))
  | Json.null => none
  | Json.str s => if s == "" then none else some false
  | Json.bool _ => some false
  | Json.num _ => some false
  | Json.obj _ => some false

/-- `issuer.publicKey || null`. -/
def jsOrNull (v : Option Json) : Json :=
  match v with
  | some x => if jsTruthy x then x else Json.null
  | none => Json.null

/-- In-memory mutation performed by `updateWithEbsiResponse` (server.js
lines 158-180) with `found` the strict Boolean mongoose stores: record the
response, status and error, clear `needsRefresh`, increment `hitCount`, and
extract public key and issuer info when the response is a non-empty array
whose first element is truthy (`if (this.found && response && response[0])`). -/
def applyEbsiResponse (e : CacheEntry) (response : Json) (found : Bool) (status : Int)
    (error : Option String) (now : Nat) : CacheEntry :=
  let base : CacheEntry :=
    { e with
      found := found
      ebsiResponse := response
      lastChecked := now
      lastStatus := some status
      lastError := error
      needsRefresh := false
      hitCount := e.hitCount + 1 }
  match response with
  | Json.arr (issuer :: _) =>
      if jsTruthy issuer then
        { base with
          publicKey := jsOrNull (issuer.getField "publicKey")
          issuerInfo :=
            { officialId := issuer.getField "officialId"
              countryCode := issuer.getField "countryCode"
              name := issuer.getField "name" } }
      else { base with publicKey := Json.null, issuerInfo := {} }
  | _ => { base with publicKey := Json.null, issuerInfo := {} }

/-- `ebsiCacheSchema.methods.updateWithEbsiResponse` (server.js lines
158-182) together with its final `return this.save()`: when the `found`
chain value casts to a strict Boolean, the mutated document is persisted;
otherwise — in particular for the `null` response of every error-path call
— the save is rejected by the `found: required Boolean` validation
(`foundBooleanOf`) and the returned promise rejects without persisting. -/
def updateWithEbsiResponse (e : CacheEntry) (response : Json) (status : Int)
    (error : Option String) (now : Nat) : Except String CacheEntry :=
  match foundBooleanOf response with
  | some found => Except.ok (applyEbsiResponse e response found status error now)
  | none => Except.error "EbsiCache validation failed: found is required"

/-- `ebsiCacheSchema.statics.markAllForRefresh` (server.js lines 203-205):
`updateMany(\x7b\x7d, \x7b needsRefresh: true \x7d)`. -/
def markAllForRefresh (cache : Cache) : Cache :=
  List.map (fun e => { e with needsRefresh := true }) cache

/-- Number of documents with `needsRefresh: true`
(`countDocuments(\x7b needsRefresh: true \x7d)`). -/
def staleCount (cache : Cache) : Nat :=
  (List.filter (fun e => e.needsRefresh) cache).length

/-! ## The trust registry client (scanRoutes.js lines 1707-1833). -/

/-- Outcome of the axios GET against the registry for one query: a response
(JSON body and HTTP status), an HTTP error carrying `error.response.status`
and `error.message`, or a network/timeout error with no response. -/
inductive BridgeOutcome where
  | ok (data : Json) (status : Int)
  | httpErr (status : Int) (message : String)
  | netErr (message : String)

/-- The external registry, as a deterministic map from the normalized
thumbprint query parameter to the outcome of the HTTP call. -/
structure BridgeEnv where
  registry : String → BridgeOutcome

/-- `checkThumbprintInBridge` (scanRoutes.js lines 1707-1833). Unless
`forceRefresh`, a cache hit increments `hitCount` (a valid Boolean-clean
save) and returns the cached `found`. Otherwise the thumbprint is
normalized and the registry queried; on success the entry is
found-or-created and updated, and the chain value `found` is returned. If
the success-path save is rejected (non-Boolean `found`), the
ValidationError propagates to the outer catch, whose own error-path update
— `updateWithEbsiResponse(null, error.response?.status || 0,
error.message)` — always fails the same validation and is swallowed by the
inner catch (lines 1816-1828): the function returns `false` with the cache
unchanged. The same happens on every HTTP or network error: the error-path
update with a `null` response never persists. -/
def checkThumbprintInBridge (env : BridgeEnv) (cache : Cache) (thumbprint : String)
    (forceRefresh : Bool) (now : Nat) : Bool × Cache :=
  match (if forceRefresh then none else findOne cache thumbprint) with
  | some cacheEntry =>
      (cacheEntry.found, saveEntry cache { cacheEntry with hitCount := cacheEntry.hitCount + 1 })
  | none =>
      let ebsiThumbprint := (normalizeThumbprintForEbsi thumbprint).normalized
      match env.registry ebsiThumbprint with
      | BridgeOutcome.ok data status =>
          match updateWithEbsiResponse (findOrCreate cache thumbprint now) data status none now with
          | Except.ok updated => (updated.found, saveEntry cache updated)
          | Except.error _ => (false, cache)
      | BridgeOutcome.httpErr status message =>
          match updateWithEbsiResponse (findOrCreate cache thumbprint now)
              Json.null status (some message) now with
          | Except.ok updated => (false, saveEntry cache updated)
          | Except.error _ => (false, cache)
      | BridgeOutcome.netErr message =>
          match updateWithEbsiResponse (findOrCreate cache thumbprint now)
              Json.null 0 (some message) now with
          | Except.ok updated => (false, saveEntry cache updated)
          | Except.error _ => (false, cache)

/-! ## Sequences of cache operations on one thumbprint (Trust Cache `get`/`upsert`). -/

/-- One Trust Cache operation on a fixed thumbprint: a cache-consulting
lookup (`checkThumbprintInBridge` with `forceRefresh = false`, with the
registry answering `net` if the lookup misses), or a direct upsert
(`findOrCreate` followed by `updateWithEbsiResponse`, the pattern used by
every registry-result write in the source). -/
inductive CacheOp where
  | get (net : BridgeOutcome)
  | upsert (response : Json) (status : Int) (error : Option String)

/-- The operation's registry response is a JSON array — the success shape
of the registry HTTP contract. Such a response always passes the
required-Boolean validation when recorded; a null or error response is
rejected by the validation and persists nothing. -/
def CacheOp.isArrayResponse : CacheOp → Bool
  | CacheOp.get (BridgeOutcome.ok (Json.arr _) _) => true
  | CacheOp.get _ => false
  | CacheOp.upsert (Json.arr _) _ _ => true
  | CacheOp.upsert _ _ _ => false

/-- Apply one `CacheOp` for `thumbprint` to the cache: as at every call
site, a save rejected by validation leaves the cache unchanged (the
rejection surfaces to the caller's catch). -/
def applyCacheOp (thumbprint : String) (now : Nat) (cache : Cache) : CacheOp → Cache
  | CacheOp.get net => (checkThumbprintInBridge ⟨fun _ => net⟩ cache thumbprint false now).2
  | CacheOp.upsert response status error =>
      match updateWithEbsiResponse (findOrCreate cache thumbprint now) response status error now with
      | Except.ok updated => saveEntry cache updated
      | Except.error _ => cache

/-- Apply a sequence of `CacheOp`s for `thumbprint` to the cache. -/
def runCacheOps (thumbprint : String) (now : Nat) (cache : Cache) (ops : List CacheOp) : Cache :=
  List.foldl (applyCacheOp thumbprint now) cache ops

/-! ## Basic facts about the cache operations. -/

lemma applyEbsiResponse_thumbprint (e : CacheEntry) (r : Json) (f : Bool) (s : Int)
    (err : Option String) (now : Nat) :
    (applyEbsiResponse e r f s err now).thumbprint = e.thumbprint := by
  unfold applyEbsiResponse
  cases r with
  | arr elems =>
      cases elems with
      | nil => rfl
      | cons x xs => by_cases h : jsTruthy x <;> simp [h]
  | null => rfl
  | bool b => rfl
  | num n => rfl
  | str s => rfl
  | obj f => rfl

lemma applyEbsiResponse_hitCount (e : CacheEntry) (r : Json) (f : Bool) (s : Int)
    (err : Option String) (now : Nat) :
    (applyEbsiResponse e r f s err now).hitCount = e.hitCount + 1 := by
  unfold applyEbsiResponse
  cases r with
  | arr elems =>
      cases elems with
      | nil => rfl
      | cons x xs => by_cases h : jsTruthy x <;> simp [h]
  | null => rfl
  | bool b => rfl
  | num n => rfl
  | str s => rfl
  | obj f => rfl

lemma updateWithEbsiResponse_arr (e : CacheEntry) (elems : List Json) (s : Int)
    (err : Option String) (now : Nat) :
    updateWithEbsiResponse e (Json.arr elems) s err now =
      Except.ok (applyEbsiResponse e (Json.arr elems)
        (decide (elems.length > 0)) s err now) := rfl

lemma updateWithEbsiResponse_null (e : CacheEntry) (s : Int)
    (err : Option String) (now : Nat) :
    updateWithEbsiResponse e Json.null s err now =
      Except.error "EbsiCache validation failed: found is required" := rfl

lemma findOne_eq_some_thumbprint {cache : Cache} {tp : String} {e : CacheEntry}
    (h : findOne cache tp = some e) : e.thumbprint = tp := by
  unfold findOne at h
  have hp := List.find?_some h
  exact eq_of_beq hp

lemma findOrCreate_thumbprint (cache : Cache) (tp : String) (now : Nat) :
    (findOrCreate cache tp now).thumbprint = tp := by
  unfold findOrCreate
  cases h : findOne cache tp with
  | none => rfl
  | some entry => exact findOne_eq_some_thumbprint h

lemma findOne_saveEntry (cache : Cache) (e : CacheEntry) :
    findOne (saveEntry cache e) e.thumbprint = some e := by
  unfold saveEntry
  by_cases hany : List.any cache (fun x => x.thumbprint == e.thumbprint)
  · simp only [hany, if_pos]
    induction cache with
    | nil => simp at hany
    | cons y ys ih =>
        by_cases hy : y.thumbprint == e.thumbprint
        · simp [findOne, List.find?, hy]
        · have hany' : List.any ys (fun x => x.thumbprint == e.thumbprint) := by
            simp only [List.any_cons, hy, Bool.false_or] at hany
            exact hany
          simp only [List.map_cons, if_neg hy]
          simp only [findOne, List.find?_cons, hy]
          exact ih hany'
  · simp only [hany, if_neg, Bool.false_eq_true, not_false_eq_true]
    have hnone : findOne cache e.thumbprint = none := by
      unfold findOne
      rw [List.find?_eq_none]
      intro x hx
      intro hbeq
      exact hany (List.any_of_mem hx hbeq)
    unfold findOne at hnone ⊢
    rw [List.find?_append, hnone]
    simp [List.find?]

/-! ## The background refresher (scanRoutes.js lines 1910-1960). -/

/-- One iteration of the refresh loop body: refresh a single cache entry via
the cache-aware bridge check with `forceRefresh = true` (scanRoutes.js line
1922). -/
def refreshStep (env : BridgeEnv) (now : Nat) (cache : Cache) (entry : CacheEntry) : Cache :=
  (checkThumbprintInBridge env cache entry.thumbprint true now).2

/-- One batch of `refreshCacheInBackground`: fetch up to 50 entries with
`needsRefresh: true` (`getEntriesNeedingRefresh(50)`, server.js lines
208-210) and refresh each in order. -/
def refreshBatch (env : BridgeEnv) (cache : Cache) (now : Nat) : Cache :=
  List.foldl (refreshStep env now)
    cache (List.take 50 (List.filter (fun e => e.needsRefresh) cache))

/-- `refreshCacheInBackground` (scanRoutes.js lines 1910-1960): process one
batch of up to 50 stale entries; if entries with `needsRefresh: true`
remain (`countDocuments(\x7b needsRefresh: true \x7d) > 0`), the function
reschedules itself after 5 s, with no other stop condition. The 100 ms
pause between registry calls and the 5 s delay do not affect the cache
state and are not modelled. The number of reschedule cycles is taken as an
explicit argument, because the source's recursion has no termination
guarantee: a failed re-query never clears `needsRefresh` (its error-path
cache update is rejected by the required-Boolean validation), so with a
persistently failing registry the stale count never reaches zero. -/
def refreshCacheInBackground (env : BridgeEnv) (cache : Cache) (now : Nat) : Nat → Cache
  | 0 => cache
  | fuel + 1 =>
      if 0 < staleCount (refreshBatch env cache now) then
        refreshCacheInBackground env (refreshBatch env cache now) now fuel
      else refreshBatch env cache now

/-! ## JWT signature validation (scanRoutes.js lines 864-1089). -/

/-- Behaviour of the external libraries used by `validateJwtSignature`:
`JSON.parse(Buffer.from(headerB64, 'base64url').toString())`,
`Buffer.from(signatureB64, 'base64url')` (a byte list; it never throws),
`crypto.createPublicKey(...).export(...)` on a JWK,
`new crypto.X509Certificate(pem).publicKey.export(...)`, and
`createVerify('SHA256').update(input).verify(key, sig)`. -/
structure CryptoOracle where
  parseHeaderJson : String → Except String Json
  b64urlDecode : String → List Nat
  createPem : Json → Except String String
  parseX509 : String → Except String String
  verify : String → String → List Nat → Bool

/-- Strict comparison `algorithm !== 'RS256'`, negated. -/
def algIsRS256 (algorithm : Json) : Bool :=
  match algorithm with
  | Json.str s => s == "RS256"
  | _ => false

/-- `publicKeyJwk.kty === 'RSA' && publicKeyJwk.n && publicKeyJwk.e`. -/
def jwkIsRsaWithNE (jwk : Json) : Bool :=
  (match jwk.getField "kty" with
   | some (Json.str s) => s == "RSA"
   | _ => false)
  && jsTruthy (jsOrNull (jwk.getField "n"))
  && jsTruthy (jsOrNull (jwk.getField "e"))

/-- `convertRsaJwkToPem` (scanRoutes.js lines 1000-1054): validate the JWK
shape, then hand the conversion to Node `crypto` (the oracle). -/
def convertRsaJwkToPem (o : CryptoOracle) (jwk : Json) : Except String String :=
  if jwkIsRsaWithNE jwk then o.createPem jwk
  else Except.error "Invalid RSA JWK - missing required fields"

/-- `extractPublicKeyFromX509` (scanRoutes.js lines 1057-1089): wrap the
certificate with PEM boundary markers when absent, then parse via Node
`crypto` (the oracle). A non-string certificate value would make
`certPem.includes` throw. -/
def extractPublicKeyFromX509 (o : CryptoOracle) (x509Cert : Json) : Except String String :=
  match x509Cert with
  | Json.str certStr =>
      let certPem :=
        if jsIncludesSubstr certStr "-----BEGIN CERTIFICATE-----" then certStr
        else "-----BEGIN CERTIFICATE-----\n" ++ certStr ++ "\n-----END CERTIFICATE-----"
      o.parseX509 certPem
  | _ => Except.error "certPem.includes is not a function"

/-- Key extraction from the EBSI response structure (scanRoutes.js lines
897-945): require a non-empty `results` array, prefer the first JWK in
`publicKeys` (RSA only), fall back to the first `certificates` entry,
otherwise fail. Returns the PEM public key and the issuer record. -/
def resolveKey (o : CryptoOracle) (publicKeyData : Json) : Except String (String × Json) :=
  match publicKeyData.getField "results" with
  | some (Json.arr (issuerData :: _)) =>
      (match issuerData.getField "publicKeys" with
       | some (Json.arr (publicKeyJwk :: _)) =>
           if jwkIsRsaWithNE publicKeyJwk then
             match convertRsaJwkToPem o publicKeyJwk with
             | Except.error m => Except.error m
             | Except.ok pem => Except.ok (pem, issuerData)
           else
             Except.error ("Unsupported JWK key type: " ++ jsDisplayOpt (publicKeyJwk.getField "kty"))
       | _ =>
           match issuerData.getField "certificates" with
           | some (Json.arr (x509Certificate :: _)) =>
               (match extractPublicKeyFromX509 o x509Certificate with
                | Except.error m => Except.error m
                | Except.ok pem => Except.ok (pem, issuerData))
           | _ => Except.error "No public key or certificate found in EBSI response")
  | _ => Except.error "Invalid EBSI response structure - expected data.results array"

/-- `issuerData?.publicKeys?.[0]?.['x5t#S256'] || 'N/A'`. -/
def thumbprintMatchOf (issuerData : Json) : Json :=
  match issuerData.getField "publicKeys" with
  | some (Json.arr (jwk :: _)) => jsOrJson (jwk.getField "x5t#S256") (Json.str "N/A")
  | _ => Json.str "N/A"

/-- `issuerInfo` object of the success return of `validateJwtSignature`;
fields read from a missing response field are `undefined` and are omitted
by `JSON.stringify`. -/
structure ValIssuerInfo where
  officialId : Option Json
  countryCode : Option Json
  name : Option Json
  did : Option Json

/-- Return shape of `validateJwtSignature`: the success branch fills the
inspection fields; the `catch` branch returns only `signatureValid: false`,
`error` and `publicKeySource: null` (every other field `undefined`). -/
structure JwtValidationResult where
  signatureValid : Bool
  error : Option String := none
  publicKeySource : Json := Json.null
  signingInput : Option String := none
  signatureLength : Option Nat := none
  algorithm : Option Json := none
  thumbprintMatch : Option Json := none
  issuerInfo : Option ValIssuerInfo := none

/-- Throwing body of `validateJwtSignature` (scanRoutes.js lines 864-982):
split the token, parse the header, default the algorithm
(`header.alg || 'RS256'`), reject non-RS256 algorithms, build the signing
input `headerB64.payloadB64`, decode the signature, resolve the public key
and verify. -/
def validateJwtSignatureE (o : CryptoOracle) (jwtToken : String) (publicKeyData : Json) :
    Except String JwtValidationResult :=
  let jwtParts := jsSplitChar jwtToken '.'
  if jwtParts.length = 3 then
    let headerB64 := jwtParts.getD 0 ""
    let payloadB64 := jwtParts.getD 1 ""
    let signatureB64 := jwtParts.getD 2 ""
    match o.parseHeaderJson headerB64 with
    | Except.error m => Except.error m
    | Except.ok header =>
        let algorithm := jsOrJson (header.getField "alg") (Json.str "RS256")
        if algIsRS256 algorithm then
          let signingInput := headerB64 ++ "." ++ payloadB64
          let signature := o.b64urlDecode signatureB64
          match resolveKey o publicKeyData with
          | Except.error m => Except.error m
          | Except.ok (publicKey, issuerData) =>
              let isValid := o.verify publicKey signingInput signature
              Except.ok
                { signatureValid := isValid
                  publicKeySource := issuerData
                  signingInput := some signingInput
                  signatureLength := some signature.length
                  algorithm := some algorithm
                  thumbprintMatch := some (thumbprintMatchOf issuerData)
                  issuerInfo := some
                    { officialId := issuerData.getField "officialId"
                      countryCode := issuerData.getField "countryCode"
                      name := issuerData.getField "name"
                      did := issuerData.getField "did" } }
        else
          Except.error ("Unsupported JWT algorithm: " ++ jsDisplay algorithm ++
            ". Only RS256 is supported.")
  else Except.error "Invalid JWT format - expected 3 parts"

/-- `validateJwtSignature` (scanRoutes.js lines 864-997): the `catch` branch
converts any thrown error into `signatureValid: false` with the message. -/
def validateJwtSignature (o : CryptoOracle) (jwtToken : String) (publicKeyData : Json) :
    JwtValidationResult :=
  match validateJwtSignatureE o jwtToken publicKeyData with
  | Except.ok r => r
  | Except.error m => { signatureValid := false, error := some m, publicKeySource := Json.null }

/-! ## `JSON.stringify(x, null, 2)` (Node semantics, two-space indent). -/

/-- Escape one character inside a JSON string literal (the characters that
occur in the modelled strings). -/
def jsonEscapeChar (c : Char) : String :=
  if c = '"' then "\\\""
  else if c = '\\' then "\\\\"
  else if c = '\n' then "\\n"
  else if c = '\r' then "\\r"
  else if c = '\t' then "\\t"
  else String.singleton c

/-- Quote a string as a JSON string literal. -/
def jsonQuote (s : String) : String :=
  "\"" ++ String.join (s.data.map jsonEscapeChar) ++ "\""

/-- Indentation of `2 * level` spaces. -/
def jsonPad (level : Nat) : String :=
  String.mk (List.replicate (2 * level) ' ')

mutual
/-- `JSON.stringify(v, null, 2)` at a nesting level: primitives inline,
non-empty arrays and objects broken over lines with two-space indentation. -/
def jsonStringifyAt : Nat → Json → String
  | _, Json.null => "null"
  | _, Json.bool b => if b then "true" else "false"
  | _, Json.num n => toString n
  | _, Json.str s => jsonQuote s
  | _, Json.arr [] => "[]"
  | level, Json.arr (x :: rest) =>
      "[\n" ++ String.intercalate ",\n" (jsonStringifyItems (level + 1) (x :: rest)) ++
        "\n" ++ jsonPad level ++ "]"
  | _, Json.obj [] => "\x7b\x7d"
  | level, Json.obj (f :: rest) =>
      "\x7b\n" ++ String.intercalate ",\n" (jsonStringifyFields (level + 1) (f :: rest)) ++
        "\n" ++ jsonPad level ++ "\x7d"

/-- Array items, one indented line each. -/
def jsonStringifyItems : Nat → List Json → List String
  | _, [] => []
  | level, x :: rest =>
      (jsonPad level ++ jsonStringifyAt level x) :: jsonStringifyItems level rest

/-- Object fields, one indented `"key": value` line each. -/
def jsonStringifyFields : Nat → List (String × Json) → List String
  | _, [] => []
  | level, (k, v) :: rest =>
      (jsonPad level ++ jsonQuote k ++ ": " ++ jsonStringifyAt level v) ::
        jsonStringifyFields level rest
end

/-- `JSON.stringify(v, null, 2)`. -/
def jsonStringify (v : Json) : String :=
  jsonStringifyAt 0 v

/-- Serialization of the `issuerInfo` object in the success return of
`validateJwtSignature`; `undefined` fields are omitted by `JSON.stringify`. -/
def ValIssuerInfo.toJson (i : ValIssuerInfo) : Json :=
  Json.obj (List.filterMap (fun kv : String × Option Json => kv.2.map (fun v => (kv.1, v)))
    [("officialId", i.officialId), ("countryCode", i.countryCode),
     ("name", i.name), ("did", i.did)])

/-- Serialization of a `validateJwtSignature` return value; `undefined`
fields are omitted by `JSON.stringify`, in the key order of the source
object literals. -/
def JwtValidationResult.toJson (r : JwtValidationResult) : Json :=
  Json.obj
    ([("signatureValid", Json.bool r.signatureValid)]
      ++ (match r.error with
          | some m => [("error", Json.str m)]
          | none => [])
      ++ [("publicKeySource", r.publicKeySource)]
      ++ (match r.signingInput with
          | some s => [("signingInput", Json.str s)]
          | none => [])
      ++ (match r.signatureLength with
          | some n => [("signatureLength", Json.num n)]
          | none => [])
      ++ (match r.algorithm with
          | some a => [("algorithm", a)]
          | none => [])
      ++ (match r.thumbprintMatch with
          | some t => [("thumbprintMatch", t)]
          | none => [])
      ++ (match r.issuerInfo with
          | some i => [("issuerInfo", ValIssuerInfo.toJson i)]
          | none => []))

/-! ## `verifySignature` (scanRoutes.js lines 1091-1193). -/

/-- Return value of `jwt.decode(token, \x7b complete: true \x7d)` when parsing
succeeds: the header and payload objects and the signature segment. -/
structure JwtDecoded where
  header : Json
  payload : Json
  signature : String

/-- The object that `JSON.stringify` serializes for a decoded JWT. -/
def JwtDecoded.asJson (d : JwtDecoded) : Json :=
  Json.obj [("header", d.header), ("payload", d.payload), ("signature", Json.str d.signature)]

/-- `part.length === 2 && part.match(/^[A-Z]\x7b2\x7d$/)`. -/
def isTwoUpper (part : String) : Bool :=
  part.length == 2 && part.data.all (fun c => 'A' ≤ c && c ≤ 'Z')

/-- Country-code detection from the JWT payload (scanRoutes.js lines
1110-1127): a two-uppercase-letter segment of a string `iss`, else a truthy
`payload.c`, else a truthy `payload.country`, else the default `'BE'`. -/
def detectCountryCode (payload : Json) : Json :=
  let fromCountry :=
    match payload.getField "country" with
    | some v => if jsTruthy v then v else Json.str "BE"
    | none => Json.str "BE"
  let fromC :=
    match payload.getField "c" with
    | some v => if jsTruthy v then v else fromCountry
    | none => fromCountry
  match payload.getField "iss" with
  | some (Json.str iss) =>
      if iss != "" then
        match List.find? isTwoUpper (jsSplitChar iss '/') with
        | some part => Json.str part
        | none => Json.str "BE"
      else fromC
  | _ => fromC

/-- The error object returned by the `catch` branch of `verifySignature` for
a thrown plain `Error` (no HTTP response attached): `error: 'Verification
Error'`, the message, and `error.toString()`. -/
def verifyErrorJson (message : String) : Json :=
  Json.obj [("error", Json.str "Verification Error"),
            ("message", Json.str message),
            ("details", Json.str ("Error: " ++ message))]

/-- `verifySignature` (scanRoutes.js lines 1091-1193): extract the
`x5t#S256` thumbprint from the header `kid`, detect a country code, run the
cache-aware bridge check, re-read the cache entry, and assemble the
response object (URL, status, cached registry data, `fromCache`,
`cacheHitCount`). Returns the response object and the new cache state. A
truthy non-string `kid` would make `kid.split` throw a TypeError. -/
def verifySignature (env : BridgeEnv) (cache : Cache) (now : Nat) (jwtDecoded : JwtDecoded) :
    Json × Cache :=
  match jwtDecoded.header.getField "kid" with
  | some (Json.str kid) =>
      if kid == "" then (verifyErrorJson "No KID found in JWT header", cache)
      else
        let kidParts := jsSplitChar kid ':'
        if kidParts.length < 3 || !(kidParts.getD 1 "" == "x5t#S256") then
          (verifyErrorJson ("Invalid KID format: " ++ kid), cache)
        else
          let x509Thumbprint := kidParts.getD 2 ""
          let countryCode := detectCountryCode jwtDecoded.payload
          let bridgeResult := checkThumbprintInBridge env cache x509Thumbprint false now
          let cacheAfter := bridgeResult.2
          let cacheEntry := findOne cacheAfter x509Thumbprint
          let dataAndStatus : Json × Int :=
            match cacheEntry with
            | some e =>
                if jsTruthy e.ebsiResponse then
                  (e.ebsiResponse,
                   match e.lastStatus with
                   | some s => if s = 0 then 200 else s
                   | none => 200)
                else (Json.null, 200)
            | none => (Json.null, 200)
          let fullUrl := "https://resolver-test.ebsi.eu/api/v1/issuers?x509Thumbprint=" ++
            (normalizeThumbprintForEbsi x509Thumbprint).normalized
          (Json.obj
            [("url", Json.str fullUrl),
             ("status", Json.num dataAndStatus.2),
             ("statusText", Json.str "OK"),
             ("headers", Json.obj [("content-type", Json.str "application/json")]),
             ("data", dataAndStatus.1),
             ("extractedKid", Json.str kid),
             ("extractedThumbprint", Json.str x509Thumbprint),
             ("detectedCountryCode", countryCode),
             ("fromCache", Json.bool cacheEntry.isSome),
             ("cacheHitCount", Json.num
               (match cacheEntry with
                | some e => Int.ofNat e.hitCount
                | none => 0))],
           cacheAfter)
  | some v =>
      if jsTruthy v then (verifyErrorJson "kid.split is not a function", cache)
      else (verifyErrorJson "No KID found in JWT header", cache)
  | none => (verifyErrorJson "No KID found in JWT header", cache)

/-! ## `processVerificationData` (scanRoutes.js lines 744-862). -/

/-- Behaviour of the decode libraries: `base45.decode`, `pako.inflate(buf,
\x7b to: 'string' \x7d)`, and `jwt.decode(token, \x7b complete: true \x7d)`
(which returns `null` on parse failure). -/
structure DecodeLib where
  base45decode : String → Except String (List Nat)
  inflate : List Nat → Except String String
  jwtDecode : String → Option JwtDecoded

/-- One record pushed onto `steps`. -/
structure StepRec where
  name : String
  data : String
  size : Nat
  percentage : Nat
deriving DecidableEq, Repr

/-- `Math.round((size / prev) * 100)` on the byte sizes; half rounds up.
Every modelled run has a positive previous size (a zero denominator would
give `NaN` in the source). -/
def roundPct (size prev : Nat) : Nat :=
  if prev = 0 then 0 else (200 * size + prev) / (2 * prev)

/-- Lower-case hex digit. -/
def hexDigit (n : Nat) : Char :=
  if n < 10 then Char.ofNat (48 + n) else Char.ofNat (87 + n)

/-- `Buffer.from(bytes).toString('hex')`. -/
def bytesToHex (bytes : List Nat) : String :=
  String.join (bytes.map (fun b => String.mk [hexDigit (b / 16 % 16), hexDigit (b % 16)]))

/-- `processVerificationData` (scanRoutes.js lines 744-862): the staged
decode pipeline. Each successful stage pushes a step record with the byte
size and the rounded percentage of the previous stage's size; a failure in
stages 2-4 aborts with a stage tag and the message attached. The nested
`catch` blocks each overwrite `error.step` while rethrowing outward
(lines 848-859), so every escaping decode failure ends up tagged
`BASE45 decoding` whatever stage produced it; the model reproduces that
final tag. Steps 5 and 6 cannot throw in the model: `verifySignature` and
`validateJwtSignature` catch internally, so the `JWT Signature Validation
(FAILED)` push and the `Signature verification` rethrow are unreachable.
Returns the steps and the cache state after the signature-verification
bridge check. -/
def processVerificationData (lib : DecodeLib) (o : CryptoOracle) (env : BridgeEnv)
    (cache : Cache) (now : Nat) (originalData : String) :
    Except (String × String) (List StepRec × Cache) :=
  let originalSize := originalData.utf8ByteSize
  let step1 : StepRec :=
    { name := "Original BASE45 String", data := originalData,
      size := originalSize, percentage := 100 }
  match lib.base45decode originalData with
  | Except.error m => Except.error ("BASE45 decoding", m)
  | Except.ok base45Decoded =>
      let base45Size := base45Decoded.length
      let step2 : StepRec :=
        { name := "Decoded BASE45 (ZLIB Compressed)", data := bytesToHex base45Decoded,
          size := base45Size, percentage := roundPct base45Size originalSize }
      match lib.inflate base45Decoded with
      | Except.error m => Except.error ("BASE45 decoding", m)
      | Except.ok zlibDecompressed =>
          let zlibSize := zlibDecompressed.utf8ByteSize
          let step3 : StepRec :=
            { name := "Decompressed ZLIB (JWT)", data := zlibDecompressed,
              size := zlibSize, percentage := roundPct zlibSize base45Size }
          match lib.jwtDecode zlibDecompressed with
          | none => Except.error ("BASE45 decoding", "Invalid JWT format")
          | some jwtDecoded =>
              let jwtString := jsonStringify jwtDecoded.asJson
              let jwtSize := jwtString.utf8ByteSize
              let step4 : StepRec :=
                { name := "Parsed JWT (Clear Text)", data := jwtString,
                  size := jwtSize, percentage := roundPct jwtSize zlibSize }
              let sigRes := verifySignature env cache now jwtDecoded
              let responseString := jsonStringify sigRes.1
              let responseSize := responseString.utf8ByteSize
              let step5 : StepRec :=
                { name := "Signature Verification Response", data := responseString,
                  size := responseSize, percentage := roundPct responseSize jwtSize }
              let jwtValidationResult := validateJwtSignature o zlibDecompressed
                ((sigRes.1.getField "data").getD Json.null)
              let validationString := jsonStringify jwtValidationResult.toJson
              let validationSize := validationString.utf8ByteSize
              let step6 : StepRec :=
                { name := "JWT Signature Validation", data := validationString,
                  size := validationSize, percentage := roundPct validationSize responseSize }
              Except.ok ([step1, step2, step3, step4, step5, step6], sigRes.2)

/-! ## C3: round trip of the base64 normalizer. -/

/-- Character of the standard base64 alphabet (letters, digits, `+`, `/`). -/
def isB64Char (c : Char) : Bool :=
  ('A' ≤ c && c ≤ 'Z') || ('a' ≤ c && c ≤ 'z') || ('0' ≤ c && c ≤ '9') || c == '+' || c == '/'

/-- Combined character map of `base64ToBase64Url`. -/
def b64ForwardChar (c : Char) : Char :=
  if c = '+' then '-' else if c = '/' then '_' else c

/-- Combined character map of `base64UrlToBase64`. -/
def b64BackwardChar (c : Char) : Char :=
  if c = '-' then '+' else if c = '_' then '/' else c

lemma data_mk (l : List Char) : (String.mk l).data = l := rfl

lemma string_length_eq (s : String) : s.length = s.data.length := rfl

lemma string_data_append (s t : String) : (s ++ t).data = s.data ++ t.data := rfl

lemma isB64Char_ne (c : Char) (h : isB64Char c = true) :
    c ≠ '=' ∧ c ≠ '-' ∧ c ≠ '_' := by
  refine ⟨?_, ?_, ?_⟩ <;> intro he <;> subst he <;> exact absurd h (by decide)

lemma b64ForwardChar_comp (c : Char) :
    (fun a => if a = '/' then '_' else a) ((fun a => if a = '+' then '-' else a) c) =
      b64ForwardChar c := by
  by_cases h1 : c = '+'
  · subst h1; decide
  · by_cases h2 : c = '/'
    · subst h2; decide
    · simp [b64ForwardChar, h1, h2]

lemma b64ForwardChar_ne_eq (c : Char) (h : isB64Char c = true) :
    b64ForwardChar c ≠ '=' := by
  by_cases h1 : c = '+'
  · subst h1; decide
  · by_cases h2 : c = '/'
    · subst h2; decide
    · have := (isB64Char_ne c h).1
      simp [b64ForwardChar, h1, h2]
      exact this

lemma b64_backward_forward (c : Char) (h : isB64Char c = true) :
    b64BackwardChar (b64ForwardChar c) = c := by
  by_cases h1 : c = '+'
  · subst h1; decide
  · by_cases h2 : c = '/'
    · subst h2; decide
    · have hne := isB64Char_ne c h
      simp [b64ForwardChar, b64BackwardChar, h1, h2, hne.2.1, hne.2.2]

lemma b64BackwardChar_comp (c : Char) :
    (fun a => if a = '_' then '/' else a) ((fun a => if a = '-' then '+' else a) c) =
      b64BackwardChar c := by
  by_cases h1 : c = '-'
  · subst h1; decide
  · by_cases h2 : c = '_'
    · subst h2; decide
    · simp [b64BackwardChar, h1, h2]

lemma filter_bne_replicate (k : Nat) :
    List.filter (fun c => c != '=') (List.replicate k '=') = [] := by
  induction k with
  | zero => rfl
  | succ n ih => simp [List.replicate_succ, List.filter_cons, ih]

lemma base64ToBase64Url_data (body : List Char) (k : Nat)
    (hb : ∀ c ∈ body, isB64Char c = true) :
    (base64ToBase64Url (String.mk (body ++ List.replicate k '='))).data =
      List.map b64ForwardChar body := by
  unfold base64ToBase64Url removeChar replaceChar
  simp only [data_mk, List.map_append, List.map_replicate, List.filter_append, List.map_map]
  have hrep : (if (if '=' = '+' then '-' else '=') = '/' then '_'
      else if '=' = '+' then '-' else '=') = '=' := by decide
  rw [hrep, filter_bne_replicate, List.append_nil]
  have hcomp : List.map ((fun a => if a = '/' then '_' else a) ∘ fun a => if a = '+' then '-' else a) body =
      List.map b64ForwardChar body :=
    List.map_congr_left (fun c _ => b64ForwardChar_comp c)
  rw [hcomp]
  rw [List.filter_eq_self]
  intro a ha
  rcases List.mem_map.mp ha with ⟨c, hc, rfl⟩
  simpa using b64ForwardChar_ne_eq c (hb c hc)

/-- C3. For every standard-base64 string — a base64-alphabet body followed
by `k ≤ 2` padding characters `=`, with total length a multiple of 4 —
that contains at least one of the characters `+`, `/`, `=`, converting it
to URL-safe form with `base64ToBase64Url` and back with
`base64UrlToBase64` recovers the original string byte-for-byte. -/
theorem c3_base64_roundtrip (s : String) (body : List Char) (k : Nat)
    (hk : k ≤ 2)
    (hs : s.data = body ++ List.replicate k '=')
    (hb : ∀ c ∈ body, isB64Char c = true)
    (hlen : (body.length + k) % 4 = 0)
    (hmark : jsIncludesChar s '+' = true ∨ jsIncludesChar s '/' = true ∨
      jsIncludesChar s '=' = true) :
    base64UrlToBase64 (base64ToBase64Url s) = s := by
  have hseq : s = String.mk (body ++ List.replicate k '=') := String.ext hs
  subst hseq
  have hurl := base64ToBase64Url_data body k hb
  have hback : replaceChar '_' '/' (replaceChar '-' '+'
      (base64ToBase64Url (String.mk (body ++ List.replicate k '=')))) = String.mk body := by
    apply String.ext
    unfold replaceChar
    simp only [data_mk, hurl, List.map_map]
    calc List.map ((fun c => if c = '_' then '/' else c) ∘
            (fun c => if c = '-' then '+' else c) ∘ b64ForwardChar) body
        = List.map id body := by
          refine List.map_congr_left (fun c hc => ?_)
          show (fun a => if a = '_' then '/' else a)
            ((fun a => if a = '-' then '+' else a) (b64ForwardChar c)) = id c
          rw [b64BackwardChar_comp (b64ForwardChar c)]
          exact b64_backward_forward c (hb c hc)
      _ = body := List.map_id body
  apply String.ext
  unfold base64UrlToBase64
  rw [hback]
  unfold padTo4
  have hlenb : (String.mk body).length = body.length := rfl
  rw [hlenb]
  interval_cases k
  · have h0 : body.length % 4 = 0 := by omega
    rw [if_neg (by omega)]
    simp [data_mk]
  · have h3 : body.length % 4 = 3 := by omega
    rw [if_pos (by omega), h3, string_data_append]
  · have h2 : body.length % 4 = 2 := by omega
    rw [if_pos (by omega), h2, string_data_append]

/-- C3 witness: the concrete standard-base64 string `"ab+="`. -/
theorem c3_base64_roundtrip_witness :
    base64UrlToBase64 (base64ToBase64Url "ab+=") = "ab+=" :=
  c3_base64_roundtrip "ab+=" ['a', 'b', '+'] 1 (by decide) (by decide) (by decide)
    (by decide) (Or.inl (by decide))

/-! ## C4: the normalizer branch policy. -/

/-- C4. For every input thumbprint, `normalizeThumbprintForEbsi` applies the
four-branch priority policy and reports the branch: standard-base64 markers
only convert to URL-safe form; URL-safe markers only, no markers, and mixed
markers all pass the input through unchanged, the mixed case flagged by the
degraded `mixed-encoding-kept-as-is` tag. -/
theorem c4_normalizer_policy (t : String) :
    (hasBase64Chars t = true → hasBase64UrlChars t = false →
      normalizeThumbprintForEbsi t =
        { normalized := base64ToBase64Url t,
          conversionApplied := "base64-to-base64url", original := t }) ∧
    (hasBase64UrlChars t = true → hasBase64Chars t = false →
      normalizeThumbprintForEbsi t =
        { normalized := t, conversionApplied := "already-base64url", original := t }) ∧
    (hasBase64Chars t = false → hasBase64UrlChars t = false →
      normalizeThumbprintForEbsi t =
        { normalized := t, conversionApplied := "assumed-base64url", original := t }) ∧
    (hasBase64Chars t = true → hasBase64UrlChars t = true →
      normalizeThumbprintForEbsi t =
        { normalized := t, conversionApplied := "mixed-encoding-kept-as-is", original := t }) := by
  cases hb : hasBase64Chars t <;> cases hu : hasBase64UrlChars t <;>
    simp [normalizeThumbprintForEbsi, hb, hu]

/-- C4 witness: one concrete input per branch. -/
theorem c4_normalizer_policy_witness :
    normalizeThumbprintForEbsi "a+b" =
      { normalized := base64ToBase64Url "a+b",
        conversionApplied := "base64-to-base64url", original := "a+b" } ∧
    normalizeThumbprintForEbsi "a-b" =
      { normalized := "a-b", conversionApplied := "already-base64url", original := "a-b" } ∧
    normalizeThumbprintForEbsi "ab" =
      { normalized := "ab", conversionApplied := "assumed-base64url", original := "ab" } ∧
    normalizeThumbprintForEbsi "a+_" =
      { normalized := "a+_", conversionApplied := "mixed-encoding-kept-as-is", original := "a+_" } :=
  ⟨(c4_normalizer_policy "a+b").1 (by decide) (by decide),
   (c4_normalizer_policy "a-b").2.1 (by decide) (by decide),
   (c4_normalizer_policy "ab").2.2.1 (by decide) (by decide),
   (c4_normalizer_policy "a+_").2.2.2 (by decide) (by decide)⟩

/-! ## C2, C10, C5, C8: the error-path cache update is never persisted. -/

/-- Stale previously-found entry used in the C2 evaluation. -/
def c2StaleEntry : CacheEntry :=
  { thumbprint := "T", found := true,
    ebsiResponse := Json.arr [Json.obj [("publicKey", Json.str "PK")]],
    publicKey := Json.str "PK", issuerInfo := {}, lastChecked := 0, hitCount := 3,
    needsRefresh := true, source := "verification", lastStatus := some 200,
    lastError := none }

/-- C2 (code-bug evaluation). The claim — after every `upsert(thumbprint,
registryResponse, status, error?)` the entry has `found` true iff the
response is a non-empty list, `needsRefresh` false and `hitCount` one
larger — matches the spec's stated behaviour of the operation (hitCount
increments on every write; needsRefresh is cleared regardless of outcome),
but the code breaks it for the error-path argument `registryResponse =
null`: the `found` chain value is `null`, the save is rejected by the
required-Boolean validation, and the persisted entry is unchanged, with
`needsRefresh` still set and `hitCount` not incremented. -/
theorem c2_null_upsert_not_persisted :
    updateWithEbsiResponse c2StaleEntry Json.null 503
      (some "Request failed with status code 503") 5 =
      Except.error "EbsiCache validation failed: found is required" ∧
    applyCacheOp "T" 5 [c2StaleEntry]
      (CacheOp.upsert Json.null 503 (some "Request failed with status code 503")) =
      [c2StaleEntry] ∧
    (findOne (applyCacheOp "T" 5 [c2StaleEntry]
        (CacheOp.upsert Json.null 503 (some "Request failed with status code 503"))) "T").map
      CacheEntry.needsRefresh = some true :=
  ⟨rfl, rfl, rfl⟩

/-- Previously found entry with cached key material, used in the C10
evaluation. -/
def c10FoundEntry : CacheEntry :=
  { thumbprint := "T", found := true,
    ebsiResponse := Json.arr [Json.obj [("publicKey", Json.str "PK")]],
    publicKey := Json.str "PK",
    issuerInfo := { officialId := some (Json.str "ID"),
                    countryCode := some (Json.str "BE"),
                    name := some (Json.str "N") },
    lastChecked := 0, hitCount := 3, needsRefresh := false,
    source := "verification", lastStatus := some 200, lastError := none }

/-- C10 (code-bug evaluation). The claim — a subsequent failed upsert
overwrites the cached key material — describes what the body of
`updateWithEbsiResponse` assigns (and what the spec records for failures:
found=false and the error text), but the assignment is never persisted:
with a `null` response the save is rejected by the required-Boolean
validation, the catch swallows the rejection, and the persisted entry
keeps `found = true`, `ebsiResponse`, `publicKey` and `issuerInfo`. -/
theorem c10_failed_refresh_retains_material :
    updateWithEbsiResponse c10FoundEntry Json.null 503
      (some "Request failed with status code 503") 7 =
      Except.error "EbsiCache validation failed: found is required" ∧
    (checkThumbprintInBridge
      ⟨fun _ => BridgeOutcome.httpErr 503 "Request failed with status code 503"⟩
      [c10FoundEntry] "T" true 7).2 = [c10FoundEntry] ∧
    (checkThumbprintInBridge
      ⟨fun _ => BridgeOutcome.httpErr 503 "Request failed with status code 503"⟩
      [c10FoundEntry] "T" true 7).1 = false :=
  ⟨rfl, rfl, rfl⟩

/-- C5 (code-bug evaluation). The claim — after an HTTP 503 the lookup
returns false and the cache entry is upserted with found=false,
lastStatus=503 and a non-null lastError — matches the spec (the entry is
unconditionally upserted on any error, scenario D), and the lookup does
return false; but the upsert never persists: `updateWithEbsiResponse(null,
503, message)` sets `found = null`, the save is rejected by the
required-Boolean validation, the catch at scanRoutes.js lines 1823-1828
swallows it, and after the call there is no cache entry for the thumbprint
at all. -/
theorem c5_error_path_no_persist :
    (checkThumbprintInBridge
      ⟨fun _ => BridgeOutcome.httpErr 503 "Request failed with status code 503"⟩
      [] "T" false 0).1 = false ∧
    (checkThumbprintInBridge
      ⟨fun _ => BridgeOutcome.httpErr 503 "Request failed with status code 503"⟩
      [] "T" false 0).2 = [] ∧
    findOne (checkThumbprintInBridge
      ⟨fun _ => BridgeOutcome.httpErr 503 "Request failed with status code 503"⟩
      [] "T" false 0).2 "T" = none :=
  ⟨rfl, rfl, rfl⟩

/-- Entry (not yet stale) used in the C8 evaluation. -/
def c8Entry : CacheEntry :=
  { thumbprint := "T", found := false, ebsiResponse := Json.null,
    publicKey := Json.null, issuerInfo := {}, lastChecked := 0, hitCount := 1,
    needsRefresh := false, source := "verification", lastStatus := some 503,
    lastError := some "Request failed with status code 503" }

/-- C8 (code-bug evaluation). The claim — after `markAllForRefresh` the
background refresher terminates with zero stale entries whether each
re-query succeeds or fails — matches the spec (stale-refresh convergence;
`needsRefresh` never left dangling), but when a forced re-query fails the
error-path update is rejected by the required-Boolean validation and
`needsRefresh` is never cleared: with a registry that answers HTTP 503,
after any number of reschedule cycles the flagged entry is still stale, so
the remaining-entries count stays positive and the loop reschedules
forever instead of completing. -/
theorem c8_refresh_no_convergence (fuel : Nat) :
    staleCount (refreshCacheInBackground
      ⟨fun _ => BridgeOutcome.httpErr 503 "Request failed with status code 503"⟩
      (markAllForRefresh [c8Entry]) 0 fuel) = 1 := by
  induction fuel with
  | zero => rfl
  | succ n ih =>
      have hbatch : refreshBatch
          ⟨fun _ => BridgeOutcome.httpErr 503 "Request failed with status code 503"⟩
          (markAllForRefresh [c8Entry]) 0 = markAllForRefresh [c8Entry] := rfl
      simp only [refreshCacheInBackground, hbatch]
      rw [if_pos (by decide)]
      exact ih

/-! ## C1: cache uniqueness and the hit counter. -/

lemma applyCacheOp_empty (tp : String) (now : Nat) (op : CacheOp)
    (harr : op.isArrayResponse = true) :
    ∃ e : CacheEntry, applyCacheOp tp now [] op = [e] ∧
      e.thumbprint = tp ∧ e.hitCount = 2 := by
  have hfo : findOne [] tp = none := rfl
  have hfc : (findOrCreate [] tp now).hitCount = 1 := rfl
  cases op with
  | get net =>
      cases net with
      | ok data status =>
          cases data with
          | arr elems =>
              refine ⟨applyEbsiResponse (findOrCreate [] tp now) (Json.arr elems)
                (decide (elems.length > 0)) status none now, ?_, ?_, ?_⟩
              · simp only [applyCacheOp, checkThumbprintInBridge, hfo,
                  updateWithEbsiResponse_arr]
                rfl
              · rw [applyEbsiResponse_thumbprint, findOrCreate_thumbprint]
              · rw [applyEbsiResponse_hitCount, hfc]
          | null => simp [CacheOp.isArrayResponse] at harr
          | bool b => simp [CacheOp.isArrayResponse] at harr
          | num n => simp [CacheOp.isArrayResponse] at harr
          | str s => simp [CacheOp.isArrayResponse] at harr
          | obj f => simp [CacheOp.isArrayResponse] at harr
      | httpErr status message => simp [CacheOp.isArrayResponse] at harr
      | netErr message => simp [CacheOp.isArrayResponse] at harr
  | upsert response status error =>
      cases response with
      | arr elems =>
          refine ⟨applyEbsiResponse (findOrCreate [] tp now) (Json.arr elems)
            (decide (elems.length > 0)) status error now, ?_, ?_, ?_⟩
          · simp only [applyCacheOp, updateWithEbsiResponse_arr]
            rfl
          · rw [applyEbsiResponse_thumbprint, findOrCreate_thumbprint]
          · rw [applyEbsiResponse_hitCount, hfc]
      | null => simp [CacheOp.isArrayResponse] at harr
      | bool b => simp [CacheOp.isArrayResponse] at harr
      | num n => simp [CacheOp.isArrayResponse] at harr
      | str s => simp [CacheOp.isArrayResponse] at harr
      | obj f => simp [CacheOp.isArrayResponse] at harr

lemma applyCacheOp_singleton (tp : String) (now : Nat) (op : CacheOp) (e : CacheEntry)
    (harr : op.isArrayResponse = true) (he : e.thumbprint = tp) :
    ∃ e2 : CacheEntry, applyCacheOp tp now [e] op = [e2] ∧
      e2.thumbprint = tp ∧ e2.hitCount = e.hitCount + 1 := by
  have hfo : findOne [e] tp = some e := by
    simp [findOne, List.find?, he]
  cases op with
  | get net =>
      refine ⟨{ e with hitCount := e.hitCount + 1 }, ?_, he, rfl⟩
      simp only [applyCacheOp, checkThumbprintInBridge, hfo]
      simp [saveEntry]
  | upsert response status error =>
      have hfc : findOrCreate [e] tp now = e := by
        unfold findOrCreate
        rw [hfo]
      cases response with
      | arr elems =>
          refine ⟨applyEbsiResponse e (Json.arr elems)
            (decide (elems.length > 0)) status error now, ?_, ?_, ?_⟩
          · simp only [applyCacheOp, hfc, updateWithEbsiResponse_arr]
            have ht := applyEbsiResponse_thumbprint e (Json.arr elems)
              (decide (elems.length > 0)) status error now
            simp [saveEntry, ht]
          · rw [applyEbsiResponse_thumbprint]
            exact he
          · exact applyEbsiResponse_hitCount _ _ _ _ _ _
      | null => simp [CacheOp.isArrayResponse] at harr
      | bool b => simp [CacheOp.isArrayResponse] at harr
      | num n => simp [CacheOp.isArrayResponse] at harr
      | str s => simp [CacheOp.isArrayResponse] at harr
      | obj f => simp [CacheOp.isArrayResponse] at harr

lemma runCacheOps_singleton (tp : String) (now : Nat) :
    ∀ (ops : List CacheOp) (e : CacheEntry),
      List.all ops CacheOp.isArrayResponse = true → e.thumbprint = tp →
      ∃ e2 : CacheEntry, runCacheOps tp now [e] ops = [e2] ∧
        e2.thumbprint = tp ∧ e2.hitCount = e.hitCount + ops.length := by
  intro ops
  induction ops with
  | nil =>
      intro e _ he
      exact ⟨e, rfl, he, rfl⟩
  | cons op rest ih =>
      intro e hall he
      rw [List.all_cons, Bool.and_eq_true] at hall
      obtain ⟨e1, h1, ht1, hc1⟩ := applyCacheOp_singleton tp now op e hall.1 he
      obtain ⟨e2, h2, ht2, hc2⟩ := ih e1 hall.2 ht1
      refine ⟨e2, ?_, ht2, ?_⟩
      · unfold runCacheOps at h2 ⊢
        rw [List.foldl_cons, h1]
        exact h2
      · rw [hc2, hc1, List.length_cons]
        omega

/-- C1 counterexample. Both parts of the claim fail on concrete inputs.
First, a single `get` whose registry answers with a (valid, empty) JSON
array leaves the entry with `hitCount = 2`, not `1`: the entry is created
with the schema default `hitCount: 1` and `updateWithEbsiResponse` then
increments it. Second, a single `get` that hits a network error creates no
entry at all — the error-path update is rejected by the required-Boolean
validation — so no CacheEntry keyed by the thumbprint exists. -/
theorem c1_counterexample :
    (findOne (runCacheOps "T" 0 [] [CacheOp.get (BridgeOutcome.ok (Json.arr []) 200)]) "T").map
      CacheEntry.hitCount ≠ some 1 ∧
    runCacheOps "T" 0 [] [CacheOp.get (BridgeOutcome.netErr "network error")] = [] := by
  constructor
  · decide
  · rfl

/-- C1 (amended). For every thumbprint and every non-empty sequence of
`get`/`upsert` calls on it starting from the empty cache, in which every
registry response involved is a JSON array (the registry contract's
success shape — a null or error response is not recorded at all, its save
being rejected by the required-Boolean validation), there exists exactly
one cache entry keyed by it (the final cache is that single entry), and
its `hitCount` equals the number of calls plus one: the creating call both
sets the default `hitCount = 1` and increments it, and every later call
increments by exactly one. -/
theorem c1_single_entry_hitCount (tp : String) (now : Nat) (ops : List CacheOp)
    (hne : ops ≠ []) (harr : List.all ops CacheOp.isArrayResponse = true) :
    ∃ e : CacheEntry, runCacheOps tp now [] ops = [e] ∧
      e.thumbprint = tp ∧ e.hitCount = ops.length + 1 := by
  cases ops with
  | nil => exact absurd rfl hne
  | cons op rest =>
      rw [List.all_cons, Bool.and_eq_true] at harr
      obtain ⟨e1, h1, ht1, hc1⟩ := applyCacheOp_empty tp now op harr.1
      obtain ⟨e2, h2, ht2, hc2⟩ := runCacheOps_singleton tp now rest e1 harr.2 ht1
      refine ⟨e2, ?_, ht2, ?_⟩
      · unfold runCacheOps at h2 ⊢
        rw [List.foldl_cons, h1]
        exact h2
      · rw [hc2, hc1, List.length_cons]
        omega

/-- C1 witness: a single array-response upsert on the empty cache. -/
theorem c1_single_entry_hitCount_witness :
    ∃ e : CacheEntry, runCacheOps "T" 0 [] [CacheOp.upsert (Json.arr []) 200 none] = [e] ∧
      e.thumbprint = "T" ∧ e.hitCount = 2 :=
  c1_single_entry_hitCount "T" 0 [CacheOp.upsert (Json.arr []) 200 none]
    (List.cons_ne_nil _ _) (by decide)

/-! ## C6, C9: algorithm handling in `validateJwtSignature`. -/

lemma validateJwtSignatureE_unsupported (o : CryptoOracle) (jwtToken : String)
    (d : Json) (hdr : Json)
    (hsplit : (jsSplitChar jwtToken '.').length = 3)
    (hhdr : o.parseHeaderJson ((jsSplitChar jwtToken '.').getD 0 "") = Except.ok hdr)
    (halg : algIsRS256 (jsOrJson (hdr.getField "alg") (Json.str "RS256")) = false) :
    validateJwtSignatureE o jwtToken d =
      Except.error ("Unsupported JWT algorithm: " ++
        jsDisplay (jsOrJson (hdr.getField "alg") (Json.str "RS256")) ++
        ". Only RS256 is supported.") := by
  unfold validateJwtSignatureE
  simp only [hsplit, if_true, hhdr, halg, if_false, Bool.false_eq_true]

/-- C6. For every token whose parsed header declares an algorithm other
than RS256 (`header.alg || 'RS256'` not strictly equal to `'RS256'`),
`validateJwtSignature` fails with the unsupported-algorithm error and
`signatureValid = false`; the failure happens before verification and
without attempting key resolution: the result is identical for any two
registry key-material inputs and any two crypto oracles that parse the
header the same way. -/
theorem c6_unsupported_algorithm (o1 o2 : CryptoOracle) (d1 d2 : Json)
    (jwtToken : String) (hdr : Json)
    (hp : o1.parseHeaderJson = o2.parseHeaderJson)
    (hsplit : (jsSplitChar jwtToken '.').length = 3)
    (hhdr : o1.parseHeaderJson ((jsSplitChar jwtToken '.').getD 0 "") = Except.ok hdr)
    (halg : algIsRS256 (jsOrJson (hdr.getField "alg") (Json.str "RS256")) = false) :
    validateJwtSignature o1 jwtToken d1 =
      { signatureValid := false,
        error := some ("Unsupported JWT algorithm: " ++
          jsDisplay (jsOrJson (hdr.getField "alg") (Json.str "RS256")) ++
          ". Only RS256 is supported."),
        publicKeySource := Json.null } ∧
    validateJwtSignature o1 jwtToken d1 = validateJwtSignature o2 jwtToken d2 := by
  have h1 := validateJwtSignatureE_unsupported o1 jwtToken d1 hdr hsplit hhdr halg
  have hhdr2 : o2.parseHeaderJson ((jsSplitChar jwtToken '.').getD 0 "") = Except.ok hdr := by
    rw [← hp]
    exact hhdr
  have h2 := validateJwtSignatureE_unsupported o2 jwtToken d2 hdr hsplit hhdr2 halg
  constructor
  · unfold validateJwtSignature
    rw [h1]
  · unfold validateJwtSignature
    rw [h1, h2]

/-- Crypto oracle for witnesses: header parses to `alg: HS256`, every other
operation succeeds, and verification answers true. -/
def cryptoOracleHs256A : CryptoOracle :=
  { parseHeaderJson := fun _ => Except.ok (Json.obj [("alg", Json.str "HS256")])
    b64urlDecode := fun _ => [7]
    createPem := fun _ => Except.ok "PEM-A"
    parseX509 := fun _ => Except.ok "X509-A"
    verify := fun _ _ _ => true }

/-- Second crypto oracle for witnesses: same header parsing as
`cryptoOracleHs256A` but failing key resolution and refusing verification. -/
def cryptoOracleHs256B : CryptoOracle :=
  { parseHeaderJson := fun _ => Except.ok (Json.obj [("alg", Json.str "HS256")])
    b64urlDecode := fun _ => []
    createPem := fun _ => Except.error "boom"
    parseX509 := fun _ => Except.error "boom"
    verify := fun _ _ _ => false }

/-- C6 witness: the token `"a.b.c"` with an HS256 header, checked against
two different key-material inputs and two different crypto oracles. -/
theorem c6_unsupported_algorithm_witness :
    validateJwtSignature cryptoOracleHs256A "a.b.c" (Json.arr []) =
      { signatureValid := false,
        error := some "Unsupported JWT algorithm: HS256. Only RS256 is supported.",
        publicKeySource := Json.null } ∧
    validateJwtSignature cryptoOracleHs256A "a.b.c" (Json.arr []) =
      validateJwtSignature cryptoOracleHs256B "a.b.c" Json.null := by
  have h := c6_unsupported_algorithm cryptoOracleHs256A cryptoOracleHs256B
    (Json.arr []) Json.null "a.b.c" (Json.obj [("alg", Json.str "HS256")])
    rfl (by decide) rfl (by decide)
  exact ⟨h.1, h.2⟩

lemma validateJwtSignatureE_default_rs256 (o : CryptoOracle) (jwtToken : String)
    (publicKeyData hdr issuerData jwk : Json) (irest jrest : List Json) (pem : String)
    (hsplit : (jsSplitChar jwtToken '.').length = 3)
    (hhdr : o.parseHeaderJson ((jsSplitChar jwtToken '.').getD 0 "") = Except.ok hdr)
    (halg : hdr.getField "alg" = none)
    (hres : publicKeyData.getField "results" = some (Json.arr (issuerData :: irest)))
    (hjwks : issuerData.getField "publicKeys" = some (Json.arr (jwk :: jrest)))
    (hrsa : jwkIsRsaWithNE jwk = true)
    (hpem : o.createPem jwk = Except.ok pem) :
    validateJwtSignatureE o jwtToken publicKeyData =
      Except.ok
        { signatureValid := o.verify pem
            ((jsSplitChar jwtToken '.').getD 0 "" ++ "." ++ (jsSplitChar jwtToken '.').getD 1 "")
            (o.b64urlDecode ((jsSplitChar jwtToken '.').getD 2 "")),
          publicKeySource := issuerData,
          signingInput := some
            ((jsSplitChar jwtToken '.').getD 0 "" ++ "." ++ (jsSplitChar jwtToken '.').getD 1 ""),
          signatureLength := some (o.b64urlDecode ((jsSplitChar jwtToken '.').getD 2 "")).length,
          algorithm := some (Json.str "RS256"),
          thumbprintMatch := some (thumbprintMatchOf issuerData),
          issuerInfo := some
            { officialId := issuerData.getField "officialId",
              countryCode := issuerData.getField "countryCode",
              name := issuerData.getField "name",
              did := issuerData.getField "did" } } := by
  unfold validateJwtSignatureE resolveKey convertRsaJwkToPem
  simp only [hsplit, if_true, hhdr, halg, jsOrJson, algIsRS256, hres, hjwks, hrsa,
    if_true, hpem, beq_self_eq_true]

/-- C9. For every token whose parsed header carries no `alg` field,
`validateJwtSignature` treats the algorithm as RS256 (`header.alg ||
'RS256'`) and proceeds to signature verification instead of failing with
`unsupported-algorithm`: with resolvable RSA key material the result is the
success shape, its `algorithm` field is `RS256`, its `error` is absent, and
`signatureValid` is whatever the RSA verification oracle answers. -/
theorem c9_missing_alg_defaults_rs256 (o : CryptoOracle) (jwtToken : String)
    (publicKeyData hdr issuerData jwk : Json) (irest jrest : List Json) (pem : String)
    (hsplit : (jsSplitChar jwtToken '.').length = 3)
    (hhdr : o.parseHeaderJson ((jsSplitChar jwtToken '.').getD 0 "") = Except.ok hdr)
    (halg : hdr.getField "alg" = none)
    (hres : publicKeyData.getField "results" = some (Json.arr (issuerData :: irest)))
    (hjwks : issuerData.getField "publicKeys" = some (Json.arr (jwk :: jrest)))
    (hrsa : jwkIsRsaWithNE jwk = true)
    (hpem : o.createPem jwk = Except.ok pem) :
    validateJwtSignature o jwtToken publicKeyData =
      { signatureValid := o.verify pem
          ((jsSplitChar jwtToken '.').getD 0 "" ++ "." ++ (jsSplitChar jwtToken '.').getD 1 "")
          (o.b64urlDecode ((jsSplitChar jwtToken '.').getD 2 "")),
        publicKeySource := issuerData,
        signingInput := some
          ((jsSplitChar jwtToken '.').getD 0 "" ++ "." ++ (jsSplitChar jwtToken '.').getD 1 ""),
        signatureLength := some (o.b64urlDecode ((jsSplitChar jwtToken '.').getD 2 "")).length,
        algorithm := some (Json.str "RS256"),
        thumbprintMatch := some (thumbprintMatchOf issuerData),
        issuerInfo := some
          { officialId := issuerData.getField "officialId",
            countryCode := issuerData.getField "countryCode",
            name := issuerData.getField "name",
            did := issuerData.getField "did" } } := by
  unfold validateJwtSignature
  rw [validateJwtSignatureE_default_rs256 o jwtToken publicKeyData hdr issuerData jwk
    irest jrest pem hsplit hhdr halg hres hjwks hrsa hpem]

/-- RSA JWK used in witnesses. -/
def rsaJwkExample : Json :=
  Json.obj [("kty", Json.str "RSA"), ("n", Json.str "AQ"), ("e", Json.str "AQAB")]

/-- Issuer record used in witnesses. -/
def issuerDataExample : Json :=
  Json.obj [("publicKeys", Json.arr [rsaJwkExample]), ("officialId", Json.str "ID")]

/-- Registry key-material input used in witnesses. -/
def publicKeyDataExample : Json :=
  Json.obj [("results", Json.arr [issuerDataExample])]

/-- Crypto oracle whose header parse yields a header with no `alg` field. -/
def cryptoOracleNoAlg : CryptoOracle :=
  { parseHeaderJson := fun _ => Except.ok (Json.obj [])
    b64urlDecode := fun _ => [7]
    createPem := fun _ => Except.ok "PEM"
    parseX509 := fun _ => Except.error "unused"
    verify := fun _ _ _ => true }

/-- C9 witness: the token `"a.b.c"` with an alg-less header and one RSA
JWK in the registry material. -/
theorem c9_missing_alg_defaults_rs256_witness :
    (validateJwtSignature cryptoOracleNoAlg "a.b.c" publicKeyDataExample).algorithm =
      some (Json.str "RS256") ∧
    (validateJwtSignature cryptoOracleNoAlg "a.b.c" publicKeyDataExample).error = none ∧
    (validateJwtSignature cryptoOracleNoAlg "a.b.c" publicKeyDataExample).signatureValid = true := by
  have h := c9_missing_alg_defaults_rs256 cryptoOracleNoAlg "a.b.c" publicKeyDataExample
    (Json.obj []) issuerDataExample rsaJwkExample [] [] "PEM"
    (by decide) rfl rfl rfl rfl (by decide) rfl
  rw [h]
  exact ⟨rfl, rfl, rfl⟩

/-! ## C7: re-running the pipeline on the same input. -/

/-- C7 (amended). For every input whose first run of the pipeline succeeds,
re-running `processVerificationData` on the same input from the cache state
the first run produced succeeds again with a trace of the same length whose
first four records — the decode stages (original, BASE45, ZLIB, parsed JWT)
— are identical; the later signature records may differ with the evolving
cache state. -/
theorem c7_decode_stages_stable (lib : DecodeLib) (o : CryptoOracle) (env : BridgeEnv)
    (cache : Cache) (now : Nat) (input : String) (t1 : List StepRec) (c1 : Cache)
    (h1 : processVerificationData lib o env cache now input = Except.ok (t1, c1)) :
    ∃ t2 c2, processVerificationData lib o env c1 now input = Except.ok (t2, c2) ∧
      List.take 4 t2 = List.take 4 t1 ∧ t2.length = t1.length := by
  cases hb : lib.base45decode input with
  | error m =>
      exfalso
      simp only [processVerificationData, hb] at h1
      exact Except.noConfusion h1
  | ok bytes =>
      cases hi : lib.inflate bytes with
      | error m =>
          exfalso
          simp only [processVerificationData, hb, hi] at h1
          exact Except.noConfusion h1
      | ok z =>
          cases hj : lib.jwtDecode z with
          | none =>
              exfalso
              simp only [processVerificationData, hb, hi, hj] at h1
              exact Except.noConfusion h1
          | some d =>
              simp only [processVerificationData, hb, hi, hj, Except.ok.injEq,
                Prod.mk.injEq] at h1 ⊢
              obtain ⟨hlist, hcache⟩ := h1
              subst hcache
              refine ⟨_, _, ⟨rfl, rfl⟩, ?_, ?_⟩
              · rw [← hlist]
                rfl
              · rw [← hlist]
                rfl

/-- Decode library for the C7 counterexample: every stage succeeds and the
inflated token parses to a JWT whose `kid` names thumbprint `T`. -/
def c7DecodeLib : DecodeLib :=
  { base45decode := fun _ => Except.ok [1]
    inflate := fun _ => Except.ok "a.b.c"
    jwtDecode := fun _ => some
      { header := Json.obj [("kid", Json.str "E:x5t#S256:T")]
        payload := Json.obj []
        signature := "s" } }

/-- Crypto oracle for the C7 counterexample. -/
def c7CryptoOracle : CryptoOracle :=
  { parseHeaderJson := fun _ => Except.ok (Json.obj [])
    b64urlDecode := fun _ => []
    createPem := fun _ => Except.error "unused"
    parseX509 := fun _ => Except.error "unused"
    verify := fun _ _ _ => false }

/-- Registry environment for the C7 counterexample (never reached: the
lookup hits the cache). -/
def c7Env : BridgeEnv := { registry := fun _ => BridgeOutcome.netErr "offline" }

/-- Cache entry for thumbprint `T` with `hitCount = 8`, so that the two
successive runs serialize `cacheHitCount` as 9 and then 10. -/
def c7Entry : CacheEntry :=
  { thumbprint := "T", found := false, ebsiResponse := Json.null, publicKey := Json.null,
    issuerInfo := {}, lastChecked := 0, hitCount := 8, needsRefresh := false,
    source := "verification", lastStatus := none, lastError := none }

set_option maxRecDepth 100000 in
/-- C7 counterexample. Running the pipeline twice on the same input from a
cache whose entry for the scanned thumbprint has `hitCount = 8` yields two
different traces: the `Signature Verification Response` record embeds the
entry's `cacheHitCount`, which is 9 in the first run and 10 in the second,
so the serialized step data and its byte size differ. -/
theorem c7_counterexample :
    (match processVerificationData c7DecodeLib c7CryptoOracle c7Env [c7Entry] 0 "Q" with
     | Except.ok (t1, cache1) =>
         (match processVerificationData c7DecodeLib c7CryptoOracle c7Env cache1 0 "Q" with
          | Except.ok (t2, _) => decide (t1 ≠ t2)
          | Except.error _ => false)
     | Except.error _ => false) = true := by
  decide

set_option maxRecDepth 100000 in
/-- C7 witness: the concrete two-run scenario of the counterexample; the
first run succeeds, the second run succeeds from the produced cache state,
and the four decode-stage records and the trace length are preserved. -/
theorem c7_decode_stages_stable_witness :
    ∃ t1 c1, processVerificationData c7DecodeLib c7CryptoOracle c7Env [c7Entry] 0 "Q" =
        Except.ok (t1, c1) ∧
      ∃ t2 c2, processVerificationData c7DecodeLib c7CryptoOracle c7Env c1 0 "Q" =
          Except.ok (t2, c2) ∧
        List.take 4 t2 = List.take 4 t1 ∧ t2.length = t1.length :=
  ⟨_, _, rfl, c7_decode_stages_stable c7DecodeLib c7CryptoOracle c7Env [c7Entry] 0 "Q" _ _ rfl⟩
